import Mathlib

/-!
Shallow embedding of the real-time notification core of the sweep-pro
backend (src/src/services/notificationService.js and the notification
routes).  JavaScript `Map`s are modelled as association lists with
JS `Map.set` replace-or-append semantics, `Set`s as duplicate-free lists,
WebSocket channels as records carrying the fields the service attaches
(`userId`, `userRole`, `userName`, `lastActivity`) plus an open flag for
`readyState === OPEN`, and the Prisma notification table as a list of rows.
Timestamps are epoch milliseconds (`Nat`); JS counter arithmetic is `Int`
since the stats counters can be decremented below a container's size.
-/

namespace SweepPro

/-- JSON-like scalar used inside a structured notification payload. -/
inductive JVal where
  | s (v : String)
  | i (v : Int)
  | b (v : Bool)
deriving DecidableEq, Repr

/-- Structured key-value payload: the `data` field of a notification. -/
abbrev Payload := List (String × JVal)

/-- User roles as stored in the user table (`user.role`). -/
inductive Role where
  | ADMIN
  | SUPERVISOR
  | MAID
  | FLOATING_MAID
  | CUSTOMER
deriving DecidableEq, Repr

/-- A row of the backing user store (the fields the service reads). -/
structure User where
  id : Nat
  name : String
  role : Role
deriving DecidableEq, Repr

/-- An in-memory notification object as passed to the send functions:
`{ type, title, message, data, timestamp }`; `data := none` models a
notification built without a `data` field (JS `undefined`/`null`). -/
structure Notification where
  type : String
  title : String
  message : String
  data : Option Payload
  timestamp : String
deriving DecidableEq, Repr

/-- A WebSocket channel object.  `cid` identifies the JS object itself
(reference identity, used by the `Set` containers); `isOpen` models
`readyState === OPEN`; the four optional fields are attached by
`authenticateClient`. -/
structure Ws where
  cid : Nat
  isOpen : Bool
  userId : Option Nat
  userRole : Option Role
  userName : Option String
  lastActivity : Option Nat
deriving DecidableEq, Repr

/-- Look a channel object up by its identity. -/
def findWs (chans : List Ws) (cid : Nat) : Option Ws :=
  chans.find? (fun w => w.cid == cid)

/-- Mark a channel closed (`ws.close(...)`). -/
def closeWs (chans : List Ws) (cid : Nat) : List Ws :=
  chans.map (fun w => if w.cid == cid then { w with isOpen := false } else w)

/-- Whether the channel `cid` currently has `readyState === OPEN`. -/
def isOpenAt (chans : List Ws) (cid : Nat) : Bool :=
  match findWs chans cid with
  | some w => w.isOpen
  | none => false

/-- JS `Map.get` on a userId-keyed map. -/
def mapGet (m : List (Nat × Nat)) (k : Nat) : Option Nat :=
  (m.find? (fun p => p.1 == k)).map (fun p => p.2)

/-- JS `Map.set`: replace the value of an existing key in place, else append. -/
def mapSet (m : List (Nat × Nat)) (k v : Nat) : List (Nat × Nat) :=
  if (m.find? (fun p => p.1 == k)).isSome then
    m.map (fun p => if p.1 == k then (k, v) else p)
  else m ++ [(k, v)]

/-- JS `Map.delete`. -/
def mapDelete (m : List (Nat × Nat)) (k : Nat) : List (Nat × Nat) :=
  m.filter (fun p => !(p.1 == k))

/-- Number of entries of the map carrying key `k` (0 or 1 for maps built
with `mapSet`). -/
def countKey (m : List (Nat × Nat)) (k : Nat) : Nat :=
  (m.filter (fun p => p.1 == k)).length

/-- JS `Set.add` (object identity: a `cid` already present is not re-added). -/
def setAdd (s : List Nat) (x : Nat) : List Nat :=
  if x ∈ s then s else s ++ [x]

/-- JS `Set.delete`. -/
def setDelete (s : List Nat) (x : Nat) : List Nat :=
  s.filter (fun y => !(y == x))

/-- The `NotificationService` registry state: the five containers and the
`connectionStats` counters, as set up in the constructor. -/
structure Service where
  clients : List (Nat × Nat)
  adminClients : List Nat
  supervisorClients : List Nat
  maidClients : List (Nat × Nat)
  customerClients : List (Nat × Nat)
  totalConnections : Int
  activeConnections : Int
  adminConnections : Int
  maidConnections : Int
  customerConnections : Int
deriving DecidableEq, Repr

/-- The freshly constructed service: empty containers, zero counters. -/
def initialService : Service :=
  { clients := [], adminClients := [], supervisorClients := []
    maidClients := [], customerClients := []
    totalConnections := 0, activeConnections := 0, adminConnections := 0
    maidConnections := 0, customerConnections := 0 }

/-- A row of the Prisma `notification` table. -/
structure NotificationRow where
  id : Nat
  userId : Nat
  type : String
  title : String
  message : String
  data : Payload
  read : Bool
  readAt : Option Nat
  delivered : Bool
  createdAt : Nat
deriving DecidableEq, Repr

/-- The row created by `saveNotificationToDatabase`: note
`data := notification.data || {}` and the hardcoded
`read: false, delivered: false`. -/
def mkRow (nid now uid : Nat) (n : Notification) : NotificationRow :=
  { id := nid, userId := uid, type := n.type, title := n.title
    message := n.message, data := n.data.getD []
    read := false, readAt := none, delivered := false, createdAt := now }

/-- `saveNotificationToDatabase(userId, notification)`:
`prisma.notification.create` appends one row. -/
def saveNotificationToDatabase (db : List NotificationRow) (nid now uid : Nat)
    (n : Notification) : List NotificationRow :=
  db ++ [mkRow nid now uid n]

/-- A push frame sent over a channel: (channel identity, serialized body). -/
abbrev Push := Nat × Notification

/-- Outcome of the token check in `authenticateClient`:
`jwt.verify` threw (invalid/expired token), the decoded id matched no user,
or a user row was found. -/
inductive AuthResult where
  | invalidToken
  | unknownUser
  | ok (user : User)
deriving DecidableEq, Repr

/-- What `authenticateClient` did to the channel. -/
inductive AuthOutcome where
  | closedWith (code : Nat)
  | success (userId : Nat) (name : String) (role : Role)
deriving DecidableEq, Repr

/-- `authenticateClient(ws, token)`: on a failed token check or unknown
user, `ws.close(1008, ...)` and no registry mutation; on success, attach
the user fields to the channel, `clients.set`, add to the role container,
bump the role counter, then bump `activeConnections` and
`totalConnections` and send `auth_success`. -/
def authenticateClient (chans : List Ws) (svc : Service) (cid : Nat)
    (res : AuthResult) (now : Nat) : List Ws × Service × AuthOutcome :=
  match res with
  | .invalidToken => (closeWs chans cid, svc, .closedWith 1008)
  | .unknownUser => (closeWs chans cid, svc, .closedWith 1008)
  | .ok user =>
    let chans' := chans.map (fun w =>
      if w.cid == cid then
        { w with userId := some user.id, userRole := some user.role,
                 userName := some user.name, lastActivity := some now }
      else w)
    let svc1 := { svc with clients := mapSet svc.clients user.id cid }
    let svc2 :=
      match user.role with
      | .ADMIN =>
        { svc1 with adminClients := setAdd svc1.adminClients cid
                    adminConnections := svc1.adminConnections + 1 }
      | .SUPERVISOR =>
        { svc1 with supervisorClients := setAdd svc1.supervisorClients cid
                    adminConnections := svc1.adminConnections + 1 }
      | .MAID =>
        { svc1 with maidClients := mapSet svc1.maidClients user.id cid
                    maidConnections := svc1.maidConnections + 1 }
      | .FLOATING_MAID =>
        { svc1 with maidClients := mapSet svc1.maidClients user.id cid
                    maidConnections := svc1.maidConnections + 1 }
      | .CUSTOMER =>
        { svc1 with customerClients := mapSet svc1.customerClients user.id cid
                    customerConnections := svc1.customerConnections + 1 }
    let svc3 := { svc2 with activeConnections := svc2.activeConnections + 1
                            totalConnections := svc2.totalConnections + 1 }
    (chans', svc3, .success user.id user.name user.role)

/-- `removeClientFromMaps(ws)`: guarded by `if (ws.userId)`; deletes the
identity from the keyed maps, deletes the object from both sets, and
decrements the counters according to `ws.userRole`. -/
def removeClientFromMaps (svc : Service) (w : Ws) : Service :=
  match w.userId with
  | none => svc
  | some uid =>
    let svc1 := { svc with
      clients := mapDelete svc.clients uid
      adminClients := setDelete svc.adminClients w.cid
      supervisorClients := setDelete svc.supervisorClients w.cid
      maidClients := mapDelete svc.maidClients uid
      customerClients := mapDelete svc.customerClients uid
      activeConnections := svc.activeConnections - 1 }
    if w.userRole = some .ADMIN ∨ w.userRole = some .SUPERVISOR then
      { svc1 with adminConnections := svc1.adminConnections - 1 }
    else if w.userRole = some .MAID ∨ w.userRole = some .FLOATING_MAID then
      { svc1 with maidConnections := svc1.maidConnections - 1 }
    else if w.userRole = some .CUSTOMER then
      { svc1 with customerConnections := svc1.customerConnections - 1 }
    else svc1

/-- An inbound application-level frame, after `JSON.parse`. -/
inductive ClientMsg where
  | auth (res : AuthResult)
  | ping
  | other
deriving Repr

/-- A server-to-client control frame. -/
inductive ServerFrame where
  | pong
  | authSuccess (userId : Nat) (name : String) (role : Role)
deriving DecidableEq, Repr

/-- The `ws.on('message')` handler in `setupWebSocketHandlers`:
`auth` runs `authenticateClient`; `ping` only answers `pong`;
everything else is ignored. -/
def handleMessage (chans : List Ws) (svc : Service) (cid : Nat)
    (msg : ClientMsg) (now : Nat) : List Ws × Service × List ServerFrame :=
  match msg with
  | .auth res =>
    let r := authenticateClient chans svc cid res now
    (r.1, r.2.1,
      match r.2.2 with
      | .success uid nm rl => [.authSuccess uid nm rl]
      | .closedWith _ => [])
  | .ping => (chans, svc, [.pong])
  | .other => (chans, svc, [])

/-- The `ws.on('close')` / `ws.on('error')` handlers. -/
def handleClose (svc : Service) (w : Ws) : Service :=
  removeClientFromMaps svc w

/-- `30 * 60 * 1000` ms. -/
def inactiveThreshold : Nat := 30 * 60 * 1000

/-- One iteration of the `clients.forEach` body in
`cleanupInactiveConnections`, for the entry `(userId, channel)`. -/
def cleanupStep (now : Nat) (st : List Ws × Service) (entry : Nat × Nat) :
    List Ws × Service :=
  match findWs st.1 entry.2 with
  | none => st
  | some w =>
    match w.lastActivity with
    | none => st
    | some t =>
      if inactiveThreshold < now - t then
        (closeWs st.1 w.cid, removeClientFromMaps st.2 w)
      else st

/-- `cleanupInactiveConnections()`: sweep every entry of `clients`,
closing and removing those idle beyond the threshold. -/
def cleanupInactiveConnections (chans : List Ws) (svc : Service) (now : Nat) :
    List Ws × Service :=
  svc.clients.foldl (cleanupStep now) (chans, svc)

/-- `sendToUser(userId, notification)`: push if `clients.get(userId)` is a
channel with `readyState === OPEN`, then always
`saveNotificationToDatabase`. -/
def sendToUser (chans : List Ws) (svc : Service) (db : List NotificationRow)
    (nid now uid : Nat) (n : Notification) : List Push × List NotificationRow :=
  let pushes :=
    match mapGet svc.clients uid with
    | some cid =>
      match findWs chans cid with
      | some w => if w.isOpen then [(cid, n)] else []
      | none => []
    | none => []
  (pushes, saveNotificationToDatabase db nid now uid n)

/-- The `for` loop over the `findMany` result in `sendToAdmins` /
`sendToAllMaids`: one `saveNotificationToDatabase` per user id, with
fresh row ids. -/
def saveMany (db : List NotificationRow) (nid now : Nat) (n : Notification) :
    List Nat → List NotificationRow
  | [] => db
  | uid :: rest =>
    saveMany (saveNotificationToDatabase db nid now uid n) (nid + 1) now n rest

/-- Whether a user row has role ADMIN or SUPERVISOR
(the `role: { in: ['ADMIN', 'SUPERVISOR'] }` filter). -/
def isAdminRole (u : User) : Bool :=
  u.role == .ADMIN || u.role == .SUPERVISOR

/-- Whether a user row has role MAID or FLOATING_MAID. -/
def isMaidRole (u : User) : Bool :=
  u.role == .MAID || u.role == .FLOATING_MAID

/-- The `if (client.readyState === OPEN) client.send(...)` body of the
`forEach` fan-out loops: emit a frame on the channel exactly when it is
open. -/
def openPush (chans : List Ws) (n : Notification) (cid : Nat) : Option Push :=
  match findWs chans cid with
  | some w => if w.isOpen then some (cid, n) else none
  | none => none

/-- `sendToAdmins(notification)`: push to every open channel of the
`adminClients` set, then persist one copy per user whose role is ADMIN or
SUPERVISOR in the user store. -/
def sendToAdmins (chans : List Ws) (svc : Service) (db : List NotificationRow)
    (users : List User) (nid now : Nat) (n : Notification) :
    List Push × List NotificationRow :=
  (svc.adminClients.filterMap (openPush chans n),
   saveMany db nid now n ((users.filter isAdminRole).map User.id))

/-- `sendToAllMaids(notification)`: push to every open channel in the
`maidClients` map, then persist one copy per user whose role is MAID or
FLOATING_MAID in the user store. -/
def sendToAllMaids (chans : List Ws) (svc : Service) (db : List NotificationRow)
    (users : List User) (nid now : Nat) (n : Notification) :
    List Push × List NotificationRow :=
  (svc.maidClients.filterMap (fun p => openPush chans n p.2),
   saveMany db nid now n ((users.filter isMaidRole).map User.id))

/-- `broadcast(notification)`: push to every open channel in the global
`clients` map; no database call at all. -/
def broadcast (chans : List Ws) (svc : Service) (db : List NotificationRow)
    (n : Notification) : List Push × List NotificationRow :=
  (svc.clients.filterMap (fun p => openPush chans n p.2), db)

/-- `markAsRead(notificationId, userId)`:
`prisma.notification.update({ where: { id, userId }, data: { read: true,
readAt: new Date() } })` — `none` models the update throwing on a missing
row (surfaced as a 500 by the route). -/
def markAsRead (db : List NotificationRow) (nid uid now : Nat) :
    Option (List NotificationRow × NotificationRow) :=
  match db.find? (fun r => r.id == nid && r.userId == uid) with
  | none => none
  | some r =>
    let r' := { r with read := true, readAt := some now }
    some (db.map (fun x => if x.id == nid && x.userId == uid then r' else x), r')

/-- The `where` object built by `GET /` in the notification routes:
`{ userId }` plus optional `read` and `type` equality filters. -/
def matchesListFilter (uid : Nat) (readF : Option Bool) (typeF : Option String)
    (r : NotificationRow) : Bool :=
  r.userId == uid &&
  (match readF with | none => true | some b => r.read == b) &&
  (match typeF with | none => true | some t => r.type == t)

/-- `GET /`: `findMany({ where, orderBy: { createdAt: 'desc' }, skip, take })`. -/
def getNotifications (db : List NotificationRow) (uid : Nat)
    (readF : Option Bool) (typeF : Option String) (page limit : Nat) :
    List NotificationRow :=
  let rows := db.filter (matchesListFilter uid readF typeF)
  let sorted := rows.insertionSort (fun a b => b.createdAt ≤ a.createdAt)
  (sorted.drop ((page - 1) * limit)).take limit

/-- An `ACTIVE` subscription row joined with its plan and customer, as the
expiry producer reads it. -/
structure Subscription where
  id : Nat
  status : String
  endDate : Int
  customerUserId : Nat
  planName : String
deriving DecidableEq, Repr

/-- `1000 * 60 * 60 * 24` ms. -/
def msPerDay : Int := 1000 * 60 * 60 * 24

/-- `Math.ceil(a / b)` for an integer numerator and positive divisor. -/
def jsCeilDiv (a b : Int) : Int := Int.ediv (a + b - 1) b

/-- The notification object built by `notifySubscriptionExpiring`. -/
def notifySubscriptionExpiring (sub : Subscription) (daysLeft : Int)
    (now : Nat) : Notification :=
  { type := "SUBSCRIPTION_EXPIRING"
    title := "Subscription Expiring"
    message := "Your " ++ sub.planName ++ " subscription expires in " ++
      toString daysLeft ++ " days"
    data := some [("subscriptionId", .i sub.id), ("planName", .s sub.planName),
                  ("endDate", .i sub.endDate), ("daysLeft", .i daysLeft)]
    timestamp := toString now }

/-- The `findMany` filter of `sendSubscriptionExpiryReminders`:
`status: 'ACTIVE'` and `endDate: { lte: now + 7 days }` — note there is no
lower bound on `endDate`. -/
def expiryFilter (now : Nat) (s : Subscription) : Bool :=
  s.status == "ACTIVE" && decide (s.endDate ≤ (now : Int) + 7 * msPerDay)

/-- The `for` loop of `sendSubscriptionExpiryReminders`: compute
`daysLeft = Math.ceil((endDate - now) / day)` and `sendToUser` the
expiring notification to `subscription.customer.userId`. -/
def expiryLoop (chans : List Ws) (svc : Service) (db : List NotificationRow)
    (nid now : Nat) : List Subscription → List Push × List NotificationRow
  | [] => ([], db)
  | s :: rest =>
    let daysLeft := jsCeilDiv (s.endDate - (now : Int)) msPerDay
    let n := notifySubscriptionExpiring s daysLeft now
    let r := sendToUser chans svc db nid now s.customerUserId n
    let rest' := expiryLoop chans svc r.2 (nid + 1) now rest
    (r.1 ++ rest'.1, rest'.2)

/-- `sendSubscriptionExpiryReminders()`: query then emit per subscription. -/
def sendSubscriptionExpiryReminders (chans : List Ws) (svc : Service)
    (db : List NotificationRow) (subs : List Subscription) (nid now : Nat) :
    List Push × List NotificationRow :=
  expiryLoop chans svc db nid now (subs.filter (expiryFilter now))

/-- Rows the expiry producer appends for a given selected list, with
sequential ids (specification-side description, proved equal to the loop). -/
def expRows (nid now : Nat) : List Subscription → List NotificationRow
  | [] => []
  | s :: rest =>
    mkRow nid now s.customerUserId
        (notifySubscriptionExpiring s (jsCeilDiv (s.endDate - (now : Int)) msPerDay) now) ::
      expRows (nid + 1) now rest

/-- Modelled from the spec (sentence level, for the C9 comparison): an end
date that "falls within the next 7 days" relative to `now`. -/
def specWithinNextSevenDays (now : Nat) (endDate : Int) : Prop :=
  (now : Int) ≤ endDate ∧ endDate ≤ (now : Int) + 7 * msPerDay

instance (now : Nat) (e : Int) : Decidable (specWithinNextSevenDays now e) := by
  unfold specWithinNextSevenDays; infer_instance

/-- The stats invariant claimed by the spec: each counter equals the
cardinality of its container (admin counter covers both admin-class sets). -/
def statsInvariant (svc : Service) : Prop :=
  svc.activeConnections = (svc.clients.length : Int) ∧
  svc.adminConnections = (svc.adminClients.length : Int) + (svc.supervisorClients.length : Int) ∧
  svc.maidConnections = (svc.maidClients.length : Int) ∧
  svc.customerConnections = (svc.customerClients.length : Int)

instance (svc : Service) : Decidable (statsInvariant svc) := by
  unfold statsInvariant; infer_instance

/-- Number of rows the table holds for a given recipient. -/
def rowCountFor (db : List NotificationRow) (uid : Nat) : Nat :=
  (db.filter (fun r => r.userId == uid)).length

/-- Hypotheses under which `removeClientFromMaps` removes exactly one
registered connection: the identity occurs once in the global map and the
channel sits in exactly the container matching its role. -/
def roleContainment (svc : Service) (w : Ws) (uid : Nat) : Bool :=
  countKey svc.clients uid == 1 &&
  (match w.userRole with
   | some .ADMIN =>
     svc.adminClients.count w.cid == 1 && svc.supervisorClients.count w.cid == 0 &&
     countKey svc.maidClients uid == 0 && countKey svc.customerClients uid == 0
   | some .SUPERVISOR =>
     svc.adminClients.count w.cid == 0 && svc.supervisorClients.count w.cid == 1 &&
     countKey svc.maidClients uid == 0 && countKey svc.customerClients uid == 0
   | some .MAID =>
     svc.adminClients.count w.cid == 0 && svc.supervisorClients.count w.cid == 0 &&
     countKey svc.maidClients uid == 1 && countKey svc.customerClients uid == 0
   | some .FLOATING_MAID =>
     svc.adminClients.count w.cid == 0 && svc.supervisorClients.count w.cid == 0 &&
     countKey svc.maidClients uid == 1 && countKey svc.customerClients uid == 0
   | some .CUSTOMER =>
     svc.adminClients.count w.cid == 0 && svc.supervisorClients.count w.cid == 0 &&
     countKey svc.maidClients uid == 0 && countKey svc.customerClients uid == 1
   | none => false)

/-! Concrete fixtures used by the counterexamples and witnesses below. -/

/-- A just-connected, not yet authenticated channel. -/
def freshWs (c : Nat) : Ws := ⟨c, true, none, none, none, none⟩

/-- A customer user row. -/
def user7 : User := ⟨7, "c", .CUSTOMER⟩

/-- A notification built without a `data` field. -/
def n0 : Notification :=
  { type := "SYSTEM_ALERT", title := "t", message := "m", data := none,
    timestamp := "0" }

/-- A notification with a one-entry payload. -/
def n1 : Notification :=
  { type := "SYSTEM_ALERT", title := "t", message := "m",
    data := some [("k", .s "v")], timestamp := "0" }

/-- State after `user7` authenticates channel 1 at t = 0. -/
def st1 := authenticateClient [freshWs 1] initialService 1 (.ok user7) 0

/-- State after `user7` authenticates a second, fresh channel 2. -/
def st2 := authenticateClient (st1.1 ++ [freshWs 2]) st1.2.1 2 (.ok user7) 5

/-- State after channel 1 sends a ping at t = 1800000 ms. -/
def st3 := handleMessage st1.1 st1.2.1 1 .ping 1800000

/-- A registry with one live open customer channel for identity 5. -/
def chansA : List Ws := [⟨1, true, some 5, some .CUSTOMER, some "u", some 0⟩]

/-- The matching service state for `chansA`. -/
def svcA : Service := { initialService with
  clients := [(5, 1)]
  customerClients := [(5, 1)]
  activeConnections := 1
  customerConnections := 1
  totalConnections := 1 }

/-- Same identity bound to a non-open channel. -/
def chansClosed : List Ws := [⟨1, false, some 5, some .CUSTOMER, some "u", some 0⟩]

/-- Database holding only the persisted copy of the data-less `n0`. -/
def db8 := saveNotificationToDatabase [] 1 100 9 n0

/-- An ACTIVE subscription whose end date is already in the past
relative to `msPerDay.toNat` (one day after the epoch). -/
def subPast : Subscription :=
  { id := 3, status := "ACTIVE", endDate := 0, customerUserId := 42,
    planName := "Gold" }

/-- One producer run over `subPast` at t = one day. -/
def r9 := sendSubscriptionExpiryReminders [] initialService [] [subPast] 1 msPerDay.toNat

/-- An already-read row for user 9. -/
def row10 : NotificationRow :=
  { mkRow 1 100 9 n1 with read := true, readAt := some 200 }

/-- A registry with a customer, a maid and an admin identity; the maid's
channel is not open. -/
def svcB : Service := { initialService with
  clients := [(5, 1), (6, 2), (8, 3)]
  adminClients := [3]
  maidClients := [(6, 2)]
  customerClients := [(5, 1)] }

/-- Channel objects backing `svcB`. -/
def chansB : List Ws :=
  [⟨1, true, some 5, some .CUSTOMER, some "a", some 0⟩,
   ⟨2, false, some 6, some .MAID, some "b", some 0⟩,
   ⟨3, true, some 8, some .ADMIN, some "c", some 0⟩]

/-- User store backing `svcB` (supervisor 9 has no live channel). -/
def usersB : List User :=
  [⟨5, "a", .CUSTOMER⟩, ⟨6, "b", .MAID⟩, ⟨8, "c", .ADMIN⟩, ⟨9, "d", .SUPERVISOR⟩]

/-! Helper lemmas about the container operations. -/

/-- `Map.set` on an absent key appends, growing the map by one. -/
theorem length_mapSet_of_get_none (m : List (Nat × Nat)) (k v : Nat)
    (h : mapGet m k = none) : (mapSet m k v).length = m.length + 1 := by
  unfold mapGet at h
  unfold mapSet
  cases hf : m.find? (fun p => p.1 == k) with
  | none => simp [hf]
  | some p => simp [hf] at h

/-- `Set.add` of an absent element grows the set by one. -/
theorem length_setAdd_of_not_mem (s : List Nat) (x : Nat) (h : x ∉ s) :
    (setAdd s x).length = s.length + 1 := by
  unfold setAdd
  simp [h]

/-- `Map.delete` removes exactly the entries counted by `countKey`. -/
theorem length_mapDelete_add (m : List (Nat × Nat)) (k : Nat) :
    (mapDelete m k).length + countKey m k = m.length := by
  induction m with
  | nil => rfl
  | cons p t ih =>
    by_cases h : p.1 = k <;>
      simp [mapDelete, countKey, List.filter_cons, h] at ih ⊢ <;> omega

/-- `Set.delete` removes exactly the occurrences counted by `List.count`. -/
theorem length_setDelete_add (s : List Nat) (x : Nat) :
    (setDelete s x).length + s.count x = s.length := by
  induction s with
  | nil => rfl
  | cons a t ih =>
    by_cases h : a = x <;>
      simp [setDelete, List.count_cons, List.filter_cons, h] at ih ⊢ <;> omega

/-- Persisting one copy raises the recipient's row count by one and no
other identity's count. -/
theorem rowCountFor_save (db : List NotificationRow) (nid now uid uid2 : Nat)
    (n : Notification) :
    rowCountFor (saveNotificationToDatabase db nid now uid n) uid2 =
      rowCountFor db uid2 + (if uid2 = uid then 1 else 0) := by
  unfold rowCountFor saveNotificationToDatabase
  rw [List.filter_append]
  by_cases h : uid2 = uid
  · subst h
    simp [mkRow]
  · have h2 : ¬ (uid = uid2) := fun hh => h hh.symm
    simp [mkRow, h, h2]

/-- The persistence loop raises each identity's row count by its number of
occurrences in the saved id list. -/
theorem rowCountFor_saveMany (ids : List Nat) :
    ∀ db nid now n uid2, rowCountFor (saveMany db nid now n ids) uid2 =
      rowCountFor db uid2 + ids.count uid2 := by
  induction ids with
  | nil => intro db nid now n uid2; simp [saveMany]
  | cons a t ih =>
    intro db nid now n uid2
    rw [saveMany, ih, rowCountFor_save, List.count_cons]
    by_cases h : uid2 = a <;> simp [h] <;> omega

/-- Characterization of one fan-out push. -/
theorem openPush_eq_some (chans : List Ws) (n : Notification) (c : Nat) (q : Push) :
    openPush chans n c = some q ↔ q = (c, n) ∧ isOpenAt chans c = true := by
  unfold openPush isOpenAt
  cases h : findWs chans c with
  | none => simp
  | some w => by_cases hw : w.isOpen <;> simp [hw, eq_comm]

/-- Membership in a fan-out over a cid set. -/
theorem mem_pushes_set (chans : List Ws) (n : Notification) (l : List Nat) (q : Push) :
    q ∈ l.filterMap (openPush chans n) ↔
      q.1 ∈ l ∧ isOpenAt chans q.1 = true ∧ q.2 = n := by
  simp only [List.mem_filterMap, openPush_eq_some]
  constructor
  · rintro ⟨c, hc, rfl, hopen⟩
    exact ⟨hc, hopen, rfl⟩
  · rintro ⟨h1, h2, h3⟩
    refine ⟨q.1, h1, ?_, h2⟩
    rw [← h3]

/-- Membership in a fan-out over a keyed map. -/
theorem mem_pushes_map (chans : List Ws) (n : Notification) (m : List (Nat × Nat))
    (q : Push) :
    q ∈ m.filterMap (fun p => openPush chans n p.2) ↔
      (∃ uid, (uid, q.1) ∈ m) ∧ isOpenAt chans q.1 = true ∧ q.2 = n := by
  simp only [List.mem_filterMap, openPush_eq_some]
  constructor
  · rintro ⟨p, hp, rfl, hopen⟩
    exact ⟨⟨p.1, by simpa using hp⟩, hopen, rfl⟩
  · rintro ⟨⟨uid, hm⟩, h2, h3⟩
    refine ⟨(uid, q.1), hm, ?_, h2⟩
    rw [← h3]

/-! Claim theorems. -/

/-- Claim C1, counterexample: a delivery to identity 5, which holds a live
open channel, makes a push attempt (one frame on channel 1) yet persists
the Event Record copy with `delivered = false`, contradicting the claim
that the flag is true exactly when a push attempt occurred. -/
theorem c1_delivered_flag_counterexample :
    (sendToUser chansA svcA [] 1 100 5 n1).1 = [(1, n1)] ∧
    (sendToUser chansA svcA [] 1 100 5 n1).2 = [mkRow 1 100 5 n1] ∧
    (mkRow 1 100 5 n1).delivered = false := by decide

/-- Claim C1, amended: every single-identity delivery persists exactly one
Event Record copy whose `delivered` flag is `false`, whether or not a live
push attempt was made. -/
theorem c1_delivered_always_false (chans : List Ws) (svc : Service)
    (db : List NotificationRow) (nid now uid : Nat) (n : Notification) :
    (sendToUser chans svc db nid now uid n).2 = db ++ [mkRow nid now uid n] ∧
    (mkRow nid now uid n).delivered = false :=
  ⟨rfl, rfl⟩

/-- Claim C5: a single-identity delivery always persists exactly one Event
Record copy for that identity whatever the registry holds, and a push to a
registered but non-open channel is silently skipped while the persistence
still happens. -/
theorem c5_persist_once_skip_closed (chans chans2 : List Ws) (svc svc2 : Service)
    (db : List NotificationRow) (nid now uid : Nat) (n : Notification)
    (c : Ws) (cidv : Nat)
    (hc : mapGet svc.clients uid = some cidv)
    (hw : findWs chans cidv = some c)
    (hopen : c.isOpen = false) :
    sendToUser chans svc db nid now uid n = ([], db ++ [mkRow nid now uid n]) ∧
    (sendToUser chans2 svc2 db nid now uid n).2 = db ++ [mkRow nid now uid n] := by
  constructor
  · simp [sendToUser, hc, hw, hopen, saveNotificationToDatabase]
  · rfl

/-- Witness for C5 at a concrete non-open channel. -/
theorem c5_witness :
    sendToUser chansClosed svcA [] 2 200 5 n1 = ([], [mkRow 2 200 5 n1]) ∧
    (sendToUser chansA svcA [] 2 200 5 n1).2 = [mkRow 2 200 5 n1] :=
  c5_persist_once_skip_closed chansClosed chansA svcA svcA [] 2 200 5 n1
    ⟨1, false, some 5, some .CUSTOMER, some "u", some 0⟩ 1
    (by decide) (by decide) rfl

/-- Claim C6: a handshake failing on an invalid or expired token or an
unknown user closes the channel with code 1008 and leaves the registry
(all containers and every counter) exactly as it was. -/
theorem c6_auth_failure_no_mutation (chans : List Ws) (svc : Service)
    (cid now : Nat) (res : AuthResult)
    (h : res = .invalidToken ∨ res = .unknownUser) :
    authenticateClient chans svc cid res now =
      (closeWs chans cid, svc, .closedWith 1008) := by
  rcases h with h | h <;> subst h <;> rfl

/-- Witness for C6 at a concrete failed handshake. -/
theorem c6_witness :
    authenticateClient [freshWs 1] initialService 1 .invalidToken 0 =
      (closeWs [freshWs 1] 1, initialService, .closedWith 1008) :=
  c6_auth_failure_no_mutation [freshWs 1] initialService 1 0 .invalidToken (Or.inl rfl)

/-- Claim C7: a global broadcast leaves the notification table untouched,
and the pushed frames are exactly one copy of the event per open channel
registered in the global identity map. -/
theorem c7_broadcast_no_persist (chans : List Ws) (svc : Service)
    (db : List NotificationRow) (n : Notification) :
    (broadcast chans svc db n).2 = db ∧
    (∀ q : Push, q ∈ (broadcast chans svc db n).1 ↔
      (∃ uid, (uid, q.1) ∈ svc.clients) ∧ isOpenAt chans q.1 = true ∧ q.2 = n) :=
  ⟨rfl, fun q => mem_pushes_map chans n svc.clients q⟩

/-- Claim C3, evaluating the code at the failing input: channel 1 is
authenticated at t = 0 and pings at t = 1800000 ms; the ping only elicits
a pong and changes neither the channels nor the registry (so
`lastActivity` stays 0), and the sweep at t = 1800001 ms evicts the
connection even though the ping arrived 1 ms earlier — while a sweep at
t = 1800000 ms would still have kept it. -/
theorem c3_ping_no_refresh_eviction :
    st3.1 = st1.1 ∧ st3.2.1 = st1.2.1 ∧ st3.2.2 = [.pong] ∧
    (cleanupInactiveConnections st3.1 st3.2.1 1800001).2.clients = [] ∧
    (cleanupInactiveConnections st3.1 st3.2.1 1800000).2.clients = [(7, 1)] := by
  decide

/-- Claim C8, counterexample: the data-less event `n0` persisted for user 9
comes back from the list API with `type`, `title`, `message` intact but
with `data` equal to the empty object, which is not the input's absent
`data`. -/
theorem c8_data_roundtrip_counterexample :
    getNotifications db8 9 none none 1 20 = [mkRow 1 100 9 n0] ∧
    (mkRow 1 100 9 n0).type = n0.type ∧
    (mkRow 1 100 9 n0).title = n0.title ∧
    (mkRow 1 100 9 n0).message = n0.message ∧
    ¬ some (mkRow 1 100 9 n0).data = n0.data := by
  decide

/-- Claim C8, amended: for an event whose `data` payload is present, the
persisted copy fetched back through the list API matches the input exactly
on `type`, `title`, `message` and `data`. -/
theorem c8_roundtrip_fields_match (db : List NotificationRow) (uid nid now : Nat)
    (n : Notification) (p : Payload)
    (hp : n.data = some p)
    (hdb : db.filter (matchesListFilter uid none none) = []) :
    getNotifications (saveNotificationToDatabase db nid now uid n) uid none none 1 20 =
      [mkRow nid now uid n] ∧
    (mkRow nid now uid n).type = n.type ∧
    (mkRow nid now uid n).title = n.title ∧
    (mkRow nid now uid n).message = n.message ∧
    (mkRow nid now uid n).data = p := by
  refine ⟨?_, rfl, rfl, rfl, by simp [mkRow, hp]⟩
  have hf : List.filter (matchesListFilter uid none none)
      (db ++ [mkRow nid now uid n]) = [mkRow nid now uid n] := by
    rw [List.filter_append, hdb]
    simp [matchesListFilter, mkRow]
  simp [getNotifications, saveNotificationToDatabase, hf]

/-- Witness for C8 at a concrete event with a payload. -/
theorem c8_witness :
    getNotifications (saveNotificationToDatabase [] 1 100 9 n1) 9 none none 1 20 =
      [mkRow 1 100 9 n1] ∧
    (mkRow 1 100 9 n1).type = n1.type ∧
    (mkRow 1 100 9 n1).title = n1.title ∧
    (mkRow 1 100 9 n1).message = n1.message ∧
    (mkRow 1 100 9 n1).data = [("k", JVal.s "v")] :=
  c8_roundtrip_fields_match [] 9 1 100 n1 [("k", JVal.s "v")] rfl rfl

/-- Claim C10: re-marking an already-read event read succeeds, keeps
`read = true`, and overwrites `readAt` with the time of the second call,
so the operation is not idempotent in `readAt`. -/
theorem c10_markAsRead_overwrites (db : List NotificationRow) (nid uid t1 t2 : Nat)
    (r : NotificationRow)
    (hr : db.find? (fun x => x.id == nid && x.userId == uid) = some r)
    (hread : r.read = true) (ht1 : r.readAt = some t1) (hne : t1 ≠ t2) :
    markAsRead db nid uid t2 =
      some (db.map (fun x => if x.id == nid && x.userId == uid then
              { r with read := true, readAt := some t2 } else x),
            { r with read := true, readAt := some t2 }) ∧
    ({ r with read := true, readAt := some t2 }).read = true ∧
    ({ r with read := true, readAt := some t2 }).readAt ≠ r.readAt := by
  refine ⟨?_, rfl, ?_⟩
  · unfold markAsRead
    rw [hr]
  · rw [ht1]
    simp only [ne_eq, Option.some.injEq]
    exact fun hh => hne hh.symm

/-- Witness for C10 on the already-read fixture row. -/
theorem c10_witness :
    markAsRead [row10] 1 9 300 =
      some ([row10].map (fun x => if x.id == 1 && x.userId == 9 then
              { row10 with read := true, readAt := some 300 } else x),
            { row10 with read := true, readAt := some 300 }) ∧
    ({ row10 with read := true, readAt := some 300 }).read = true ∧
    ({ row10 with read := true, readAt := some 300 }).readAt ≠ row10.readAt :=
  c10_markAsRead_overwrites [row10] 1 9 200 300 row10
    (by decide) (by decide) (by decide) (by decide)

/-- Claim C4: a role-class delivery persists exactly one Event Record copy
per user-store member of the role (admins cover ADMIN and SUPERVISOR,
maids cover MAID and FLOATING_MAID) and pushes exactly to the open
channels currently in the role-class container, so the persisted set
follows membership and the pushed set follows liveness. -/
theorem c4_roleclass_delivery (chans : List Ws) (svc : Service)
    (db : List NotificationRow) (users : List User) (nid now : Nat)
    (n : Notification)
    (hnd : (users.map User.id).Nodup) :
    (∀ uid, rowCountFor (sendToAdmins chans svc db users nid now n).2 uid =
      rowCountFor db uid +
        (if uid ∈ (users.filter isAdminRole).map User.id then 1 else 0)) ∧
    (∀ q : Push, q ∈ (sendToAdmins chans svc db users nid now n).1 ↔
      q.1 ∈ svc.adminClients ∧ isOpenAt chans q.1 = true ∧ q.2 = n) ∧
    (∀ uid, rowCountFor (sendToAllMaids chans svc db users nid now n).2 uid =
      rowCountFor db uid +
        (if uid ∈ (users.filter isMaidRole).map User.id then 1 else 0)) ∧
    (∀ q : Push, q ∈ (sendToAllMaids chans svc db users nid now n).1 ↔
      (∃ uid2, (uid2, q.1) ∈ svc.maidClients) ∧ isOpenAt chans q.1 = true ∧ q.2 = n) := by
  have hndA : ((users.filter isAdminRole).map User.id).Nodup :=
    hnd.sublist ((List.filter_sublist users).map User.id)
  have hndM : ((users.filter isMaidRole).map User.id).Nodup :=
    hnd.sublist ((List.filter_sublist users).map User.id)
  refine ⟨fun uid => ?_, fun q => mem_pushes_set chans n svc.adminClients q,
          fun uid => ?_, fun q => mem_pushes_map chans n svc.maidClients q⟩
  · show rowCountFor (saveMany db nid now n ((users.filter isAdminRole).map User.id)) uid = _
    rw [rowCountFor_saveMany]
    by_cases hm : uid ∈ (users.filter isAdminRole).map User.id
    · rw [List.count_eq_one_of_mem hndA hm, if_pos hm]
    · rw [List.count_eq_zero_of_not_mem hm, if_neg hm]
  · show rowCountFor (saveMany db nid now n ((users.filter isMaidRole).map User.id)) uid = _
    rw [rowCountFor_saveMany]
    by_cases hm : uid ∈ (users.filter isMaidRole).map User.id
    · rw [List.count_eq_one_of_mem hndM hm, if_pos hm]
    · rw [List.count_eq_zero_of_not_mem hm, if_neg hm]

/-- Witness for C4 over the concrete registry `svcB`: the offline
supervisor 9 still gets a persisted copy, the open admin channel 3 is
pushed to, and the non-open maid channel 2 is not. -/
theorem c4_witness :
    rowCountFor (sendToAdmins chansB svcB [] usersB 1 100 n1).2 9 = 1 ∧
    (3, n1) ∈ (sendToAdmins chansB svcB [] usersB 1 100 n1).1 ∧
    ¬ (2, n1) ∈ (sendToAllMaids chansB svcB [] usersB 1 100 n1).1 := by
  have h := c4_roleclass_delivery chansB svcB [] usersB 1 100 n1 (by decide)
  refine ⟨?_, ?_, ?_⟩
  · have h9 := h.1 9
    simpa using h9
  · exact (h.2.1 (3, n1)).2 (by refine ⟨by decide, by decide, rfl⟩)
  · intro hmem
    have h2 := (h.2.2.2 (2, n1)).1 hmem
    have : isOpenAt chansB 2 = true := h2.2.1
    simp [isOpenAt, findWs, chansB] at this

/-- The expiry loop appends exactly the rows described by `expRows`. -/
theorem expiryLoop_db (chans : List Ws) (svc : Service) (now : Nat) :
    ∀ (l : List Subscription) (db : List NotificationRow) (nid : Nat),
      (expiryLoop chans svc db nid now l).2 = db ++ expRows nid now l := by
  intro l
  induction l with
  | nil => intro db nid; simp [expiryLoop, expRows]
  | cons s t ih =>
    intro db nid
    simp [expiryLoop, expRows, sendToUser, saveNotificationToDatabase, ih]

/-- Claim C9, counterexample: at t = one day after the epoch the ACTIVE
subscription `subPast` ended a full day earlier, so its end date does not
fall within the next 7 days, yet one run of the producer persists an
expiry event for its customer, with computed days-remaining -1. -/
theorem c9_out_of_window_counterexample :
    ¬ specWithinNextSevenDays msPerDay.toNat subPast.endDate ∧
    r9.2 = [mkRow 1 msPerDay.toNat 42
      (notifySubscriptionExpiring subPast (-1) msPerDay.toNat)] := by
  decide

/-- Claim C9, amended: one run of the expiry producer persists exactly one
event per ACTIVE subscription whose end date is at most 7 days in the
future — including subscriptions whose end date has already passed — each
addressed to the subscription's owning customer and carrying the computed
days-remaining (possibly zero or negative) in its payload. -/
theorem c9_expiry_producer (chans : List Ws) (svc : Service)
    (db : List NotificationRow) (subs : List Subscription) (nid now : Nat) :
    (sendSubscriptionExpiryReminders chans svc db subs nid now).2 =
      db ++ expRows nid now (subs.filter (expiryFilter now)) ∧
    (∀ (nid2 : Nat) (s : Subscription),
      (mkRow nid2 now s.customerUserId
        (notifySubscriptionExpiring s (jsCeilDiv (s.endDate - (now : Int)) msPerDay) now)).userId
        = s.customerUserId ∧
      ("daysLeft", JVal.i (jsCeilDiv (s.endDate - (now : Int)) msPerDay)) ∈
        (mkRow nid2 now s.customerUserId
          (notifySubscriptionExpiring s (jsCeilDiv (s.endDate - (now : Int)) msPerDay) now)).data) := by
  refine ⟨expiryLoop_db chans svc now (subs.filter (expiryFilter now)) db nid, ?_⟩
  intro nid2 s
  refine ⟨rfl, ?_⟩
  simp [mkRow, notifySubscriptionExpiring]

/-- Claim C2, counterexample: after a second successful handshake for the
already-connected identity 7 the global map still holds one entry while
the active counter reads 2, so the counters do not equal the container
cardinalities. -/
theorem c2_stats_counterexample :
    ¬ statsInvariant st2.2.1 ∧
    st2.2.1.activeConnections = 2 ∧ st2.2.1.clients.length = 1 := by
  decide

/-- Claim C2, amended: the counters do track the container cardinalities
for the operations the registry intends: a successful handshake for an
identity with no current connection on a fresh channel preserves the
invariant, and so does a single removal of a consistently registered
connection; the invariant can fail after a second handshake for an
already-connected identity or a double removal. -/
theorem c2_stats_preserved (chans : List Ws) (svc : Service) (cid now : Nat)
    (u : User) (w : Ws) (uid : Nat) :
    (statsInvariant svc → mapGet svc.clients u.id = none →
     mapGet svc.maidClients u.id = none → mapGet svc.customerClients u.id = none →
     cid ∉ svc.adminClients → cid ∉ svc.supervisorClients →
     statsInvariant (authenticateClient chans svc cid (.ok u) now).2.1) ∧
    (statsInvariant svc → w.userId = some uid → roleContainment svc w uid = true →
     statsInvariant (removeClientFromMaps svc w)) := by
  constructor
  · intro hinv h1 h2 h3 h4 h5
    obtain ⟨ha, hb, hc2, hd⟩ := hinv
    have hlen := length_mapSet_of_get_none svc.clients u.id cid h1
    have hlenM := length_mapSet_of_get_none svc.maidClients u.id cid h2
    have hlenC := length_mapSet_of_get_none svc.customerClients u.id cid h3
    have hlenA := length_setAdd_of_not_mem _ _ h4
    have hlenS := length_setAdd_of_not_mem _ _ h5
    cases hr : u.role <;>
      simp [authenticateClient, hr, statsInvariant, hlen, hlenM, hlenC, hlenA, hlenS] <;>
      omega
  · intro hinv hwid hrc
    obtain ⟨ha, hb, hc2, hd⟩ := hinv
    have e1 := length_mapDelete_add svc.clients uid
    have e2 := length_setDelete_add svc.adminClients w.cid
    have e3 := length_setDelete_add svc.supervisorClients w.cid
    have e4 := length_mapDelete_add svc.maidClients uid
    have e5 := length_mapDelete_add svc.customerClients uid
    unfold removeClientFromMaps
    rw [hwid]
    cases hwr : w.userRole with
    | none => simp [roleContainment, hwr] at hrc
    | some role =>
      cases role <;>
        simp only [roleContainment, hwr, Bool.and_eq_true, beq_iff_eq] at hrc <;>
        obtain ⟨hk, ⟨⟨hA, hS⟩, hM⟩, hC⟩ := hrc <;>
        simp [statsInvariant] <;>
        omega

/-- Witness for C2 on `svcA`: a fresh handshake for identity 7 and a single
removal of the registered customer channel both preserve the invariant. -/
theorem c2_stats_preserved_witness :
    statsInvariant (authenticateClient [freshWs 2] svcA 2 (.ok user7) 5).2.1 ∧
    statsInvariant (removeClientFromMaps svcA
      ⟨1, true, some 5, some .CUSTOMER, some "u", some 0⟩) :=
  ⟨(c2_stats_preserved [freshWs 2] svcA 2 5 user7
      ⟨1, true, some 5, some .CUSTOMER, some "u", some 0⟩ 5).1
      (by decide) (by decide) (by decide) (by decide) (by decide) (by decide),
   (c2_stats_preserved [freshWs 2] svcA 2 5 user7
      ⟨1, true, some 5, some .CUSTOMER, some "u", some 0⟩ 5).2
      (by decide) rfl (by decide)⟩

end SweepPro
